import Mathlib

/-!
Shallow embedding of `kittens/mouse_resize/main.py`: a mouse-driven
window-resize controller for the kitty terminal.  The handler tracks mouse
drag events over the terminal cell grid and translates cell deltas into
`resize-window` remote-control commands.

Host facilities imported by the module but not part of the source file
(`kitty.cli.parse_args`, `kitty.rc.base.command_for_name` /
`parse_subcommand_cli`, `kitty.remote_control.encode_send` /
`parse_rc_args`, `kitty.constants.version`, the tui event loop) are
modelled from the spec where a claim depends on them; each such definition
carries a doc comment saying so.
-/

namespace MouseResize

/-- Event kinds delivered by the host input loop (`EventType` in
`kittens/tui/loop.py`): press, release and move. -/
inductive EventType
  | PRESS
  | RELEASE
  | MOVE
  deriving DecidableEq, Repr

/-- Mouse buttons that can appear in an event's active-button set.  The
source only inspects membership of `RIGHT`. -/
inductive MouseButton
  | LEFT
  | MIDDLE
  | RIGHT
  | FOURTH
  deriving DecidableEq, Repr

/-- A mouse event as delivered by the host input loop: event type, the set
of active buttons (modelled as a list with membership), pixel coordinates
and cell coordinates. -/
structure MouseEvent where
  type : EventType
  buttons : List MouseButton
  pixel_x : Int
  pixel_y : Int
  cell_x : Int
  cell_y : Int
  deriving DecidableEq, Repr

/-- The two configuration integers (`ResizeCLIOptions`): the base
horizontal and vertical increments, CLI defaults 2 and 2, type `int`. -/
structure ResizeCLIOptions where
  horizontal_increment : Int
  vertical_increment : Int
  deriving DecidableEq, Repr

/-- The mutable state of the `Mouse` handler: the last observed mouse
event, the configuration, and the tracked previous/current cells. -/
structure MouseState where
  current_mouse_event : Option MouseEvent
  opts : ResizeCLIOptions
  previous_cell : Option (Int × Int)
  current_cell : Option (Int × Int)
  deriving DecidableEq, Repr

/-- The handler state right after `__init__`: no event observed, no cells
tracked. -/
def init_state (opts : ResizeCLIOptions) : MouseState :=
  { current_mouse_event := none
    opts := opts
    previous_cell := none
    current_cell := none }

/-- A resolved remote command, of which the source only uses the `name`
attribute. -/
structure RemoteCommand where
  name : String
  deriving DecidableEq, Repr

/-- Modelled from the spec: `kitty.rc.base.command_for_name` (not under
`src/`) resolves a registered remote command from its registry key; the
spec names the resolved remote command `"resize-window"`, the hyphenated
form of the key `"resize_window"`. -/
def command_for_name (cmd_name : String) : RemoteCommand :=
  ⟨⟨cmd_name.data.map (fun c => if c = '_' then '-' else c)⟩⟩

/-- Modelled from the spec: the request payload is opaque to this
component ("resolves and validates arguments into an opaque request
payload"), so it is modelled as a tag holding the command-line-style
argument list it was resolved from. -/
structure Payload where
  items : List String
  deriving DecidableEq, Repr

/-- Modelled from the spec: `kitty.rc.base.parse_subcommand_cli` followed
by the command's `message_to_kitty` (both not under `src/`) resolve a
command-line-style argument list into the opaque request payload. -/
def message_to_kitty (_rc : RemoteCommand) (cmdline : List String) : Payload :=
  ⟨cmdline⟩

/-- Modelled from the spec: the host protocol version constant
(`kitty.constants.version`, not under `src/`); its value is opaque to this
component, so it is a one-constructor type. -/
inductive ProtocolVersion
  | host
  deriving DecidableEq, Repr

/-- The protocol version constant placed into every send envelope. -/
def version : ProtocolVersion := ProtocolVersion.host

/-- The structured envelope handed to the send encoder:
`{'cmd': ..., 'version': ..., 'payload': ..., 'no_response': False}`. -/
structure SendEnvelope where
  cmd : String
  version : ProtocolVersion
  payload : Payload
  no_response : Bool
  deriving DecidableEq, Repr

/-- A serialized line for the host channel. -/
structure EncodedLine where
  envelope : SendEnvelope
  deriving DecidableEq, Repr

/-- Modelled from the spec: `kitty.remote_control.encode_send` (not under
`src/`) serializes the envelope into a transmittable line; the encoding is
opaque ("treated as a black box"), so it is modelled as a constructor
tagging the envelope. -/
def encode_send (send : SendEnvelope) : EncodedLine :=
  ⟨send⟩

/-- `Mouse.do_window_resize`: builds the command line
`[name, '--self', '--increment=<int>', '--axis=<axis>']` for the resolved
`resize_window` command, resolves it into a payload, wraps it into a send
envelope and encodes it.  The Python parameters default to
`is_decrease=False, is_horizontal=True, reset=False, multiplier=1`; here
they are always passed explicitly. -/
def do_window_resize (opts : ResizeCLIOptions) (is_decrease : Bool)
    (is_horizontal : Bool) (reset : Bool) (multiplier : Int) : EncodedLine :=
  let resize_window := command_for_name "resize_window"
  let increment0 := if is_horizontal then opts.horizontal_increment else opts.vertical_increment
  let increment1 := increment0 * multiplier
  let increment := if is_decrease then increment1 * (-1) else increment1
  let axis := if reset then "reset" else (if is_horizontal then "horizontal" else "vertical")
  let cmdline := [resize_window.name, "--self", "--increment=" ++ toString increment,
    "--axis=" ++ axis]
  let payload := message_to_kitty resize_window cmdline
  let send : SendEnvelope :=
    { cmd := resize_window.name, version := version, payload := payload, no_response := false }
  encode_send send

/-- The observable outcome of one handler callback: the state afterwards,
the encoded lines written to the host channel (in order), the screens
drawn, and the `quit_loop` exit code when the callback requested loop
termination. -/
structure StepResult where
  state : MouseState
  writes : List EncodedLine
  draws : List (List String)
  quit : Option Nat
  deriving DecidableEq, Repr

/-- `Mouse.draw_screen`: the lines printed to the (cleared) screen as a
function of the handler state — three instruction lines, plus a debug
block once a mouse event has been observed.  Both the "Previous Cell" and
the "Current Cell" lines are printed from the event's cell coordinates. -/
def draw_screen (st : MouseState) : List String :=
  let base := ["Resizing window",
    "Move the mouse to resize the window",
    "Release the right mouse button to stop resizing"]
  match st.current_mouse_event with
  | none => base
  | some ev => base ++
      ["Debug info:",
       "Position: " ++ toString ev.pixel_x ++ ", " ++ toString ev.pixel_y,
       "Previous Cell: " ++ toString ev.cell_x ++ ", " ++ toString ev.cell_y,
       "Current Cell:  " ++ toString ev.cell_x ++ ", " ++ toString ev.cell_y]

/-- `Mouse.on_mouse_move`: records the current cell; on the very first
move (no previous cell) just records it as the previous cell; otherwise
emits a resize per axis with non-zero delta, redraws if anything was
emitted, and finally sets the previous cell to the current cell. -/
def on_mouse_move (ev : MouseEvent) (st : MouseState) : StepResult :=
  let current_cell : Int × Int := (ev.cell_x, ev.cell_y)
  let st1 := { st with current_cell := some current_cell }
  match st1.previous_cell with
  | none =>
      { state := { st1 with previous_cell := some current_cell }
        writes := [], draws := [], quit := none }
  | some previous_cell =>
      let horizontal_multiplier := current_cell.1 - previous_cell.1
      let hwrites := if horizontal_multiplier = 0 then [] else
        [do_window_resize st1.opts (decide (horizontal_multiplier < 0)) true false
          (horizontal_multiplier.natAbs : Int)]
      let vertical_multiplier := current_cell.2 - previous_cell.2
      let vwrites := if vertical_multiplier = 0 then [] else
        [do_window_resize st1.opts (decide (vertical_multiplier < 0)) false false
          (vertical_multiplier.natAbs : Int)]
      let redraw_pending := ¬horizontal_multiplier = 0 ∨ ¬vertical_multiplier = 0
      let draws := if redraw_pending then [draw_screen st1] else []
      { state := { st1 with previous_cell := some (current_cell.1, current_cell.2) }
        writes := hwrites ++ vwrites
        draws := draws
        quit := none }

/-- `Mouse.on_mouse_event`: remembers the event, ignores presses, quits
with code 0 on a right-button release (ignores other releases), and
forwards the remaining kind (moves) to `on_mouse_move`. -/
def on_mouse_event (ev : MouseEvent) (st : MouseState) : StepResult :=
  let st1 := { st with current_mouse_event := some ev }
  match ev.type with
  | EventType.PRESS =>
      { state := st1, writes := [], draws := [], quit := none }
  | EventType.RELEASE =>
      if MouseButton.RIGHT ∈ ev.buttons then
        { state := st1, writes := [], draws := [], quit := some 0 }
      else
        { state := st1, writes := [], draws := [], quit := none }
  | EventType.MOVE => on_mouse_move ev st1

/-- `Mouse.on_interrupt`: quit the loop with exit code 0. -/
def on_interrupt (st : MouseState) : StepResult :=
  { state := st, writes := [], draws := [], quit := some 0 }

/-- `Mouse.on_eot = Mouse.on_interrupt`. -/
def on_eot : MouseState → StepResult := on_interrupt

/-- The kinds of input the host loop delivers to the handler: mouse
events, an interrupt signal, and end-of-transmission. -/
inductive InputEvent
  | mouse (ev : MouseEvent)
  | interrupt
  | eot
  deriving DecidableEq, Repr

/-- Dispatch of one delivered input to the handler callback the host loop
would invoke for it. -/
def handle_event : InputEvent → MouseState → StepResult
  | InputEvent.mouse ev, st => on_mouse_event ev st
  | InputEvent.interrupt, st => on_interrupt st
  | InputEvent.eot, st => on_eot st

/-- The `--axis=...` argument of an emitted command line (index 3 of the
argument list the payload was resolved from). -/
def axis_arg (l : EncodedLine) : Option String :=
  l.envelope.payload.items[3]?

/-- The `--increment=...` argument of an emitted command line (index 2 of
the argument list the payload was resolved from). -/
def increment_arg (l : EncodedLine) : Option String :=
  l.envelope.payload.items[2]?

/-- Outcome of `kitty.cli.parse_args` as observed by `main`: either a
parsed options record, or a `SystemExit` carrying the parser's exit code
and message.  Modelled from the spec: `parse_args` itself is host code not
under `src/`; on failure it exits with a non-zero code after attaching the
error message. -/
inductive ParseOutcome
  | ok (opts : ResizeCLIOptions)
  | sysExit (code : Int) (msg : String)
  deriving DecidableEq, Repr

/-- The observable behaviour of one run of `main`: lines printed to
standard error, whether the "Press Enter to quit" prompt ran, whether the
session loop was started, and the process exit code. -/
structure MainResult where
  stderr_lines : List String
  prompted : Bool
  session_started : Bool
  exit_code : Int
  deriving DecidableEq, Repr

/-- `main`: parses the CLI arguments inside a `try`.  A `SystemExit` with
non-zero code has its message printed to standard error followed by an
interactive prompt, and `main` returns normally (so the process exit code
is 0 in every branch); a zero-code `SystemExit` just returns.  On success
the session loop is started. -/
def main (parse_result : ParseOutcome) : MainResult :=
  match parse_result with
  | ParseOutcome.ok _ =>
      { stderr_lines := [], prompted := false, session_started := true, exit_code := 0 }
  | ParseOutcome.sysExit code msg =>
      if ¬code = 0 then
        { stderr_lines := [msg], prompted := true, session_started := false, exit_code := 0 }
      else
        { stderr_lines := [], prompted := false, session_started := false, exit_code := 0 }

/-- A sample configuration: horizontal step 2 (the CLI default), vertical
step 3. -/
def opts_ex : ResizeCLIOptions := { horizontal_increment := 2, vertical_increment := 3 }

/-- A sample Tracking state: previous cell (5, 5) recorded. -/
def st_ex : MouseState :=
  { current_mouse_event := none
    opts := opts_ex
    previous_cell := some (5, 5)
    current_cell := some (5, 5) }

/-- A sample move event to cell (8, 4). -/
def ev_ex : MouseEvent :=
  { type := EventType.MOVE
    buttons := [MouseButton.LEFT]
    pixel_x := 100
    pixel_y := 200
    cell_x := 8
    cell_y := 4 }

/-- A sample move event to cell (5, 5), equal to the tracked previous
cell of `st_ex`. -/
def ev_same_cell : MouseEvent :=
  { type := EventType.MOVE
    buttons := [MouseButton.LEFT]
    pixel_x := 100
    pixel_y := 200
    cell_x := 5
    cell_y := 5 }

/-- A sample press event. -/
def ev_press : MouseEvent :=
  { type := EventType.PRESS
    buttons := [MouseButton.LEFT]
    pixel_x := 7
    pixel_y := 9
    cell_x := 1
    cell_y := 2 }

/-- A sample release event whose buttons do not include the right
button. -/
def ev_release_left : MouseEvent :=
  { type := EventType.RELEASE
    buttons := [MouseButton.LEFT]
    pixel_x := 7
    pixel_y := 9
    cell_x := 1
    cell_y := 2 }

/-- A sample release event whose buttons include the right button. -/
def ev_release_right : MouseEvent :=
  { type := EventType.RELEASE
    buttons := [MouseButton.RIGHT]
    pixel_x := 7
    pixel_y := 9
    cell_x := 1
    cell_y := 2 }

/-- A Tracking state whose configured horizontal step is the negative
integer -2 (the CLI option has type `int`, so this is a representable
configuration). -/
def st_negative_step : MouseState :=
  { current_mouse_event := none
    opts := { horizontal_increment := -2, vertical_increment := 2 }
    previous_cell := some (0, 0)
    current_cell := some (0, 0) }

/-- A move event one cell to the right of `st_negative_step`'s previous
cell. -/
def ev_right_one : MouseEvent :=
  { type := EventType.MOVE
    buttons := [MouseButton.LEFT]
    pixel_x := 10
    pixel_y := 0
    cell_x := 1
    cell_y := 0 }

end MouseResize

namespace MouseResize

/-- The resolved remote command is named `resize-window`. -/
theorem name_resize_window : (command_for_name "resize_window").name = "resize-window" := rfl

/-- The `--axis` argument emitted by `do_window_resize`. -/
theorem axis_arg_do_window_resize (opts : ResizeCLIOptions) (dec horiz reset : Bool) (m : Int) :
    axis_arg (do_window_resize opts dec horiz reset m) =
      some ("--axis=" ++ (if reset then "reset" else (if horiz then "horizontal" else "vertical"))) := by
  cases horiz <;> cases reset <;> rfl

/-- Horizontal, non-reset calls carry the literal `--axis=horizontal`. -/
theorem axis_arg_h (opts : ResizeCLIOptions) (dec : Bool) (m : Int) :
    axis_arg (do_window_resize opts dec true false m) = some "--axis=horizontal" := by
  cases dec <;> rfl

/-- Vertical, non-reset calls carry the literal `--axis=vertical`. -/
theorem axis_arg_v (opts : ResizeCLIOptions) (dec : Bool) (m : Int) :
    axis_arg (do_window_resize opts dec false false m) = some "--axis=vertical" := by
  cases dec <;> rfl

/-- The `--increment` argument emitted by `do_window_resize`. -/
theorem increment_arg_do_window_resize (opts : ResizeCLIOptions) (dec horiz reset : Bool) (m : Int) :
    increment_arg (do_window_resize opts dec horiz reset m) =
      some ("--increment=" ++ toString
        (if dec then ((if horiz then opts.horizontal_increment else opts.vertical_increment) * m) * (-1)
         else (if horiz then opts.horizontal_increment else opts.vertical_increment) * m)) := by
  cases dec <;> cases horiz <;> rfl

/-- The `--increment` argument of the horizontal command emitted for a
cell delta `d`. -/
theorem increment_arg_h (opts : ResizeCLIOptions) (d : Int) :
    increment_arg (do_window_resize opts (decide (d < 0)) true false (d.natAbs : Int)) =
      some ("--increment=" ++ toString
        (if d < 0 then (opts.horizontal_increment * (d.natAbs : Int)) * (-1)
         else opts.horizontal_increment * (d.natAbs : Int))) := by
  by_cases h : d < 0 <;> simp [increment_arg_do_window_resize, h]

/-- The `--increment` argument of the vertical command emitted for a cell
delta `d`. -/
theorem increment_arg_v (opts : ResizeCLIOptions) (d : Int) :
    increment_arg (do_window_resize opts (decide (d < 0)) false false (d.natAbs : Int)) =
      some ("--increment=" ++ toString
        (if d < 0 then (opts.vertical_increment * (d.natAbs : Int)) * (-1)
         else opts.vertical_increment * (d.natAbs : Int))) := by
  by_cases h : d < 0 <;> simp [increment_arg_do_window_resize, h]

/-- Full description of a move event handled while a previous cell is
recorded. -/
theorem on_mouse_event_move_tracking (ev : MouseEvent) (st : MouseState) (p : Int × Int)
    (htyp : ev.type = EventType.MOVE) (hprev : st.previous_cell = some p) :
    on_mouse_event ev st =
      { state := { st with
            current_mouse_event := some ev
            current_cell := some (ev.cell_x, ev.cell_y)
            previous_cell := some (ev.cell_x, ev.cell_y) }
        writes :=
          (if ev.cell_x - p.1 = 0 then [] else
            [do_window_resize st.opts (decide (ev.cell_x - p.1 < 0)) true false
              ((ev.cell_x - p.1).natAbs : Int)]) ++
          (if ev.cell_y - p.2 = 0 then [] else
            [do_window_resize st.opts (decide (ev.cell_y - p.2 < 0)) false false
              ((ev.cell_y - p.2).natAbs : Int)])
        draws :=
          if ¬ev.cell_x - p.1 = 0 ∨ ¬ev.cell_y - p.2 = 0 then
            [draw_screen { st with
                current_mouse_event := some ev
                current_cell := some (ev.cell_x, ev.cell_y) }]
          else []
        quit := none } := by
  unfold on_mouse_event on_mouse_move
  rw [htyp]
  simp [hprev]

/-- Membership in the concatenation of two conditionally-empty singleton
lists. -/
theorem mem_ite_append {α : Type} (P Q : Prop) [Decidable P] [Decidable Q] (a b l : α) :
    l ∈ (if P then ([] : List α) else [a]) ++ (if Q then ([] : List α) else [b]) ↔
      ((¬P ∧ l = a) ∨ (¬Q ∧ l = b)) := by
  by_cases hP : P <;> by_cases hQ : Q <;> simp [hP, hQ]

/-- Magnitude and sign of the increment the handler computes for a
non-zero cell delta `d` and a positive configured step. -/
theorem resize_increment_props (step d : Int) (hstep : 0 < step) (hd : ¬d = 0) :
    (if d < 0 then (step * (d.natAbs : Int)) * (-1) else step * (d.natAbs : Int)).natAbs
        = step.toNat * d.natAbs ∧
    ((if d < 0 then (step * (d.natAbs : Int)) * (-1) else step * (d.natAbs : Int)) < 0 ↔ d < 0) := by
  have habs : (step * (d.natAbs : Int)).natAbs = step.toNat * d.natAbs := by
    rw [Int.natAbs_mul]
    have h1 : ((d.natAbs : Int)).natAbs = d.natAbs := Int.natAbs_ofNat _
    rw [h1]
    have h2 : step.natAbs = step.toNat := by omega
    rw [h2]
  have hdpos : (0 : Int) < (d.natAbs : Int) := by
    have : d.natAbs ≠ 0 := Int.natAbs_ne_zero.mpr hd
    omega
  have hpos : 0 < step * (d.natAbs : Int) := mul_pos hstep hdpos
  by_cases hdlt : d < 0
  · rw [if_pos hdlt]
    refine ⟨?_, ?_⟩
    · rw [mul_neg_one, Int.natAbs_neg]
      exact habs
    · constructor
      · intro _
        exact hdlt
      · intro _
        rw [mul_neg_one]
        linarith
  · rw [if_neg hdlt]
    refine ⟨habs, ?_⟩
    constructor
    · intro h
      exact absurd h (by linarith)
    · intro h
      exact absurd h hdlt

/-- Every line the handler ever writes comes from a `do_window_resize`
call with `reset = false`. -/
theorem emitted_line_shape (e : InputEvent) (st : MouseState) :
    ∀ l ∈ (handle_event e st).writes, ∃ (dec horiz : Bool) (m : Int),
      l = do_window_resize st.opts dec horiz false m := by
  intro l hl
  cases e with
  | interrupt => simp [handle_event, on_interrupt] at hl
  | eot => simp [handle_event, on_eot, on_interrupt] at hl
  | mouse ev =>
      simp only [handle_event] at hl
      cases htyp : ev.type with
      | PRESS => simp [on_mouse_event, htyp] at hl
      | RELEASE =>
          by_cases hR : MouseButton.RIGHT ∈ ev.buttons <;>
            simp [on_mouse_event, htyp, hR] at hl
      | MOVE =>
          cases hp : st.previous_cell with
          | none => simp [on_mouse_event, on_mouse_move, htyp, hp] at hl
          | some p =>
              rw [on_mouse_event_move_tracking ev st p htyp hp] at hl
              simp only [mem_ite_append] at hl
              cases hl with
              | inl h => exact ⟨_, true, _, h.2⟩
              | inr h => exact ⟨_, false, _, h.2⟩

/-- C3: no resize command is emitted for a press event, nor for the very
first move event while no previous cell is recorded; on such a move the
handler records the event's cell as the previous cell and returns without
emitting any command. -/
theorem c3_no_command_on_press_or_first_move (ev : MouseEvent) (st : MouseState) :
    (ev.type = EventType.PRESS →
      (on_mouse_event ev st).writes = [] ∧ (on_mouse_event ev st).draws = [] ∧
      (on_mouse_event ev st).quit = none) ∧
    (ev.type = EventType.MOVE → st.previous_cell = none →
      (on_mouse_event ev st).writes = [] ∧ (on_mouse_event ev st).draws = [] ∧
      (on_mouse_event ev st).quit = none ∧
      (on_mouse_event ev st).state.previous_cell = some (ev.cell_x, ev.cell_y)) := by
  constructor
  · intro hp
    simp [on_mouse_event, hp]
  · intro hm hprev
    simp [on_mouse_event, on_mouse_move, hm, hprev]

/-- C3 witness: a press event and a first move event, handled from the
initial state, emit nothing; the move records cell (8, 4). -/
theorem c3_no_command_on_press_or_first_move_witness :
    (ev_press.type = EventType.PRESS →
      (on_mouse_event ev_press (init_state opts_ex)).writes = [] ∧
      (on_mouse_event ev_press (init_state opts_ex)).draws = [] ∧
      (on_mouse_event ev_press (init_state opts_ex)).quit = none) ∧
    (ev_press.type = EventType.MOVE → (init_state opts_ex).previous_cell = none →
      (on_mouse_event ev_press (init_state opts_ex)).writes = [] ∧
      (on_mouse_event ev_press (init_state opts_ex)).draws = [] ∧
      (on_mouse_event ev_press (init_state opts_ex)).quit = none ∧
      (on_mouse_event ev_press (init_state opts_ex)).state.previous_cell =
        some (ev_press.cell_x, ev_press.cell_y)) :=
  c3_no_command_on_press_or_first_move ev_press (init_state opts_ex)

/-- C4 counterexample: a left-button release does not terminate the
session and emits nothing, but it is not true that it "changes nothing":
the handler records the event as the current mouse event, so the state
changes. -/
theorem c4_counterexample :
    ¬MouseButton.RIGHT ∈ ev_release_left.buttons ∧
    (on_mouse_event ev_release_left st_ex).quit = none ∧
    (on_mouse_event ev_release_left st_ex).writes = [] ∧
    ¬(on_mouse_event ev_release_left st_ex).state = st_ex := by decide

/-- C4 (amended): for every release event, the session terminates with
exit code 0 iff the right button is among the released buttons; a release
emits no command, triggers no redraw, and leaves all handler state
unchanged except that the event is recorded as the current mouse event. -/
theorem c4_release_terminates_iff_right (ev : MouseEvent) (st : MouseState)
    (htyp : ev.type = EventType.RELEASE) :
    ((on_mouse_event ev st).quit = some 0 ↔ MouseButton.RIGHT ∈ ev.buttons) ∧
    (on_mouse_event ev st).writes = [] ∧
    (on_mouse_event ev st).draws = [] ∧
    (on_mouse_event ev st).state = { st with current_mouse_event := some ev } := by
  by_cases hR : MouseButton.RIGHT ∈ ev.buttons <;> simp [on_mouse_event, htyp, hR]

/-- C4 witness: a right-button release from the Tracking sample state
terminates with exit code 0 and changes only the recorded event. -/
theorem c4_release_terminates_iff_right_witness :
    ev_release_right.type = EventType.RELEASE ∧
    (((on_mouse_event ev_release_right st_ex).quit = some 0 ↔
        MouseButton.RIGHT ∈ ev_release_right.buttons) ∧
      (on_mouse_event ev_release_right st_ex).writes = [] ∧
      (on_mouse_event ev_release_right st_ex).draws = [] ∧
      (on_mouse_event ev_release_right st_ex).state =
        { st_ex with current_mouse_event := some ev_release_right }) :=
  ⟨rfl, c4_release_terminates_iff_right ev_release_right st_ex rfl⟩

/-- C5: an interrupt or end-of-input signal always requests loop
termination with exit code 0, whatever the tracking state, and emits and
draws nothing. -/
theorem c5_interrupt_always_quits_zero (st : MouseState) :
    (on_interrupt st).quit = some 0 ∧ (on_eot st).quit = some 0 ∧
    (on_interrupt st).writes = [] ∧ (on_eot st).writes = [] ∧
    (on_interrupt st).state = st ∧ (on_eot st).state = st :=
  ⟨rfl, rfl, rfl, rfl, rfl, rfl⟩

/-- C6: after a move event handled while Tracking, the screen is redrawn
iff at least one resize command was emitted for that event; a move to the
unchanged cell emits nothing and draws nothing. -/
theorem c6_redraw_iff_command (ev : MouseEvent) (st : MouseState) (p : Int × Int)
    (htyp : ev.type = EventType.MOVE) (hprev : st.previous_cell = some p) :
    (¬(on_mouse_event ev st).draws = [] ↔ ¬(on_mouse_event ev st).writes = []) ∧
    ((ev.cell_x, ev.cell_y) = p →
      (on_mouse_event ev st).writes = [] ∧ (on_mouse_event ev st).draws = []) := by
  rw [on_mouse_event_move_tracking ev st p htyp hprev]
  constructor
  · by_cases h1 : ev.cell_x - p.1 = 0 <;> by_cases h2 : ev.cell_y - p.2 = 0 <;>
      simp [h1, h2]
  · intro hc
    have hx : ev.cell_x = p.1 := congrArg Prod.fst hc
    have hy : ev.cell_y = p.2 := congrArg Prod.snd hc
    simp [hx, hy]

/-- C6 witness: the move from previous cell (5, 5) to cell (5, 5) emits no
command and triggers no redraw. -/
theorem c6_redraw_iff_command_witness :
    ev_same_cell.type = EventType.MOVE ∧ st_ex.previous_cell = some (5, 5) ∧
    ((¬(on_mouse_event ev_same_cell st_ex).draws = [] ↔
        ¬(on_mouse_event ev_same_cell st_ex).writes = []) ∧
      ((ev_same_cell.cell_x, ev_same_cell.cell_y) = ((5 : Int), (5 : Int)) →
        (on_mouse_event ev_same_cell st_ex).writes = [] ∧
        (on_mouse_event ev_same_cell st_ex).draws = [])) :=
  ⟨rfl, rfl, c6_redraw_iff_command ev_same_cell st_ex (5, 5) rfl rfl⟩

/-- C7 counterexample: a press event received mid-drag emits nothing, but
the handler's state is not unchanged: the event is recorded as the
current mouse event. -/
theorem c7_counterexample :
    ev_press.type = EventType.PRESS ∧
    (on_mouse_event ev_press st_ex).writes = [] ∧
    ¬(on_mouse_event ev_press st_ex).state = st_ex := by decide

/-- C7 (amended): a press event, in any state, emits no command, draws
nothing, does not terminate, and leaves the tracked previous and current
cells (and everything else except the recorded current mouse event)
unchanged; the event is recorded as the current mouse event. -/
theorem c7_press_preserves_tracking (ev : MouseEvent) (st : MouseState)
    (htyp : ev.type = EventType.PRESS) :
    (on_mouse_event ev st).writes = [] ∧
    (on_mouse_event ev st).draws = [] ∧
    (on_mouse_event ev st).quit = none ∧
    (on_mouse_event ev st).state = { st with current_mouse_event := some ev } ∧
    (on_mouse_event ev st).state.previous_cell = st.previous_cell ∧
    (on_mouse_event ev st).state.current_cell = st.current_cell := by
  simp [on_mouse_event, htyp]

/-- C7 witness: the sample press event mid-drag keeps the tracked cells of
the Tracking sample state. -/
theorem c7_press_preserves_tracking_witness :
    ev_press.type = EventType.PRESS ∧
    ((on_mouse_event ev_press st_ex).writes = [] ∧
      (on_mouse_event ev_press st_ex).draws = [] ∧
      (on_mouse_event ev_press st_ex).quit = none ∧
      (on_mouse_event ev_press st_ex).state =
        { st_ex with current_mouse_event := some ev_press } ∧
      (on_mouse_event ev_press st_ex).state.previous_cell = st_ex.previous_cell ∧
      (on_mouse_event ev_press st_ex).state.current_cell = st_ex.current_cell) :=
  ⟨rfl, c7_press_preserves_tracking ev_press st_ex rfl⟩

/-- C9: whenever the debug block is rendered, the "Previous Cell" line and
the "Current Cell" line both display the same values, namely the current
event's cell coordinates; the rendering does not depend on the tracked
previous-cell and current-cell state at all. -/
theorem c9_debug_lines_show_event_cell (st : MouseState) (ev : MouseEvent)
    (hev : st.current_mouse_event = some ev) :
    (draw_screen st)[5]? =
      some ("Previous Cell: " ++ toString ev.cell_x ++ ", " ++ toString ev.cell_y) ∧
    (draw_screen st)[6]? =
      some ("Current Cell:  " ++ toString ev.cell_x ++ ", " ++ toString ev.cell_y) ∧
    (∀ q q' : Option (Int × Int),
      draw_screen { st with previous_cell := q, current_cell := q' } = draw_screen st) := by
  refine ⟨?_, ?_, ?_⟩ <;> simp [draw_screen, hev]

/-- C9 witness: with the sample move event recorded, lines 5 and 6 of the
drawn screen both show cell (8, 4). -/
theorem c9_debug_lines_show_event_cell_witness :
    ({ st_ex with current_mouse_event := some ev_ex } : MouseState).current_mouse_event =
        some ev_ex ∧
    ((draw_screen { st_ex with current_mouse_event := some ev_ex })[5]? =
        some ("Previous Cell: " ++ toString ev_ex.cell_x ++ ", " ++ toString ev_ex.cell_y) ∧
      (draw_screen { st_ex with current_mouse_event := some ev_ex })[6]? =
        some ("Current Cell:  " ++ toString ev_ex.cell_x ++ ", " ++ toString ev_ex.cell_y) ∧
      (∀ q q' : Option (Int × Int),
        draw_screen { { st_ex with current_mouse_event := some ev_ex } with
            previous_cell := q, current_cell := q' } =
          draw_screen { st_ex with current_mouse_event := some ev_ex })) :=
  ⟨rfl, c9_debug_lines_show_event_cell { st_ex with current_mouse_event := some ev_ex } ev_ex rfl⟩

/-- C2 counterexample: on a parse failure with the parser's code 2, the
error message is printed to standard error and the session never starts,
but the process exit code is 0, not the parser's non-zero code. -/
theorem c2_counterexample :
    (main (ParseOutcome.sysExit 2 "unknown option")).stderr_lines = ["unknown option"] ∧
    (main (ParseOutcome.sysExit 2 "unknown option")).session_started = false ∧
    (main (ParseOutcome.sysExit 2 "unknown option")).exit_code = 0 ∧
    ¬(2 : Int) = 0 := by decide

/-- C2 (amended): if option parsing fails with a non-zero code, the
process prints the error message to standard error, prompts for a
keypress, and the session loop never starts; the exception is swallowed,
so the process exits with code 0 rather than the parser's code. -/
theorem c2_parse_failure_behaviour (code : Int) (msg : String) (h : ¬code = 0) :
    (main (ParseOutcome.sysExit code msg)).stderr_lines = [msg] ∧
    (main (ParseOutcome.sysExit code msg)).session_started = false ∧
    (main (ParseOutcome.sysExit code msg)).prompted = true ∧
    (main (ParseOutcome.sysExit code msg)).exit_code = 0 := by
  simp [main, h]

/-- C2 witness: parse failure with code 2 and message "unknown option". -/
theorem c2_parse_failure_behaviour_witness :
    ¬(2 : Int) = 0 ∧
    ((main (ParseOutcome.sysExit 2 "unknown option")).stderr_lines = ["unknown option"] ∧
      (main (ParseOutcome.sysExit 2 "unknown option")).session_started = false ∧
      (main (ParseOutcome.sysExit 2 "unknown option")).prompted = true ∧
      (main (ParseOutcome.sysExit 2 "unknown option")).exit_code = 0) :=
  ⟨by decide, c2_parse_failure_behaviour 2 "unknown option" (by decide)⟩

/-- C1 counterexample: with the representable configuration
`horizontal_increment = -2`, a move one cell to the right (delta +1, not
negative) emits exactly one horizontal command whose increment is -2:
negative although the delta is positive, and of magnitude 2 rather than
`configured_step * |delta| = -2`. -/
theorem c1_counterexample :
    st_negative_step.previous_cell = some (0, 0) ∧
    ev_right_one.type = EventType.MOVE ∧
    ev_right_one.cell_x - 0 = 1 ∧
    ¬(1 : Int) < 0 ∧
    (on_mouse_event ev_right_one st_negative_step).writes.map axis_arg =
      [some "--axis=horizontal"] ∧
    (on_mouse_event ev_right_one st_negative_step).writes.map increment_arg =
      [some ("--increment=" ++ toString (-2 : Int))] ∧
    "--increment=" ++ toString (-2 : Int) = "--increment=-2" ∧
    (-2 : Int) < 0 ∧
    ¬(((-2 : Int).natAbs : Int) =
        st_negative_step.opts.horizontal_increment * (ev_right_one.cell_x - 0)) := by decide

/-- C1 (amended): for every move event handled while Tracking, provided
the configured steps are positive (as the defaults are), a resize command
is emitted on an axis iff that axis's cell delta is non-zero, and the
emitted increment has magnitude `configured_step * |delta|` and is
negative iff the delta is negative. -/
theorem c1_move_resize_commands (ev : MouseEvent) (st : MouseState) (p : Int × Int)
    (htyp : ev.type = EventType.MOVE) (hprev : st.previous_cell = some p)
    (hh : 0 < st.opts.horizontal_increment) (hv : 0 < st.opts.vertical_increment) :
    ((∃ l ∈ (on_mouse_event ev st).writes, axis_arg l = some "--axis=horizontal") ↔
        ¬ev.cell_x - p.1 = 0) ∧
    ((∃ l ∈ (on_mouse_event ev st).writes, axis_arg l = some "--axis=vertical") ↔
        ¬ev.cell_y - p.2 = 0) ∧
    (∀ l ∈ (on_mouse_event ev st).writes, axis_arg l = some "--axis=horizontal" →
      ∃ i : Int, increment_arg l = some ("--increment=" ++ toString i) ∧
        i.natAbs = st.opts.horizontal_increment.toNat * (ev.cell_x - p.1).natAbs ∧
        (i < 0 ↔ ev.cell_x - p.1 < 0)) ∧
    (∀ l ∈ (on_mouse_event ev st).writes, axis_arg l = some "--axis=vertical" →
      ∃ i : Int, increment_arg l = some ("--increment=" ++ toString i) ∧
        i.natAbs = st.opts.vertical_increment.toNat * (ev.cell_y - p.2).natAbs ∧
        (i < 0 ↔ ev.cell_y - p.2 < 0)) := by
  rw [on_mouse_event_move_tracking ev st p htyp hprev]
  simp only [mem_ite_append]
  refine ⟨?_, ?_, ?_, ?_⟩
  · constructor
    · rintro ⟨l, ⟨hne, rfl⟩ | ⟨hne, rfl⟩, hax⟩
      · exact hne
      · rw [axis_arg_v] at hax
        exact absurd hax (by decide)
    · intro hne
      exact ⟨_, Or.inl ⟨hne, rfl⟩, axis_arg_h _ _ _⟩
  · constructor
    · rintro ⟨l, ⟨hne, rfl⟩ | ⟨hne, rfl⟩, hax⟩
      · rw [axis_arg_h] at hax
        exact absurd hax (by decide)
      · exact hne
    · intro hne
      exact ⟨_, Or.inr ⟨hne, rfl⟩, axis_arg_v _ _ _⟩
  · rintro l (⟨hne, rfl⟩ | ⟨hne, rfl⟩) hax
    · exact ⟨_, increment_arg_h st.opts (ev.cell_x - p.1),
        (resize_increment_props st.opts.horizontal_increment (ev.cell_x - p.1) hh hne).1,
        (resize_increment_props st.opts.horizontal_increment (ev.cell_x - p.1) hh hne).2⟩
    · rw [axis_arg_v] at hax
      exact absurd hax (by decide)
  · rintro l (⟨hne, rfl⟩ | ⟨hne, rfl⟩) hax
    · rw [axis_arg_h] at hax
      exact absurd hax (by decide)
    · exact ⟨_, increment_arg_v st.opts (ev.cell_y - p.2),
        (resize_increment_props st.opts.vertical_increment (ev.cell_y - p.2) hv hne).1,
        (resize_increment_props st.opts.vertical_increment (ev.cell_y - p.2) hv hne).2⟩

/-- C1 witness: moving from previous cell (5, 5) to cell (8, 4) with
steps 2 and 3 emits a horizontal and a vertical command with the stated
magnitudes and signs. -/
theorem c1_move_resize_commands_witness :
    ev_ex.type = EventType.MOVE ∧ st_ex.previous_cell = some (5, 5) ∧
    (0 : Int) < st_ex.opts.horizontal_increment ∧
    (0 : Int) < st_ex.opts.vertical_increment ∧
    (((∃ l ∈ (on_mouse_event ev_ex st_ex).writes, axis_arg l = some "--axis=horizontal") ↔
        ¬ev_ex.cell_x - 5 = 0) ∧
      ((∃ l ∈ (on_mouse_event ev_ex st_ex).writes, axis_arg l = some "--axis=vertical") ↔
        ¬ev_ex.cell_y - 5 = 0) ∧
      (∀ l ∈ (on_mouse_event ev_ex st_ex).writes, axis_arg l = some "--axis=horizontal" →
        ∃ i : Int, increment_arg l = some ("--increment=" ++ toString i) ∧
          i.natAbs = st_ex.opts.horizontal_increment.toNat * (ev_ex.cell_x - 5).natAbs ∧
          (i < 0 ↔ ev_ex.cell_x - 5 < 0)) ∧
      (∀ l ∈ (on_mouse_event ev_ex st_ex).writes, axis_arg l = some "--axis=vertical" →
        ∃ i : Int, increment_arg l = some ("--increment=" ++ toString i) ∧
          i.natAbs = st_ex.opts.vertical_increment.toNat * (ev_ex.cell_y - 5).natAbs ∧
          (i < 0 ↔ ev_ex.cell_y - 5 < 0))) :=
  ⟨rfl, rfl, by decide, by decide,
    c1_move_resize_commands ev_ex st_ex (5, 5) rfl rfl (by decide) (by decide)⟩

/-- C8: every emitted resize command is built as the argument list
`[resize-window, --self, --increment=<signed int>, --axis=<axis>]` with
the axis one of horizontal, vertical or reset, resolved into the payload,
and sent as the encoded envelope of command name, protocol version,
payload and response-wanted flag. -/
theorem c8_command_shape (e : InputEvent) (st : MouseState) :
    ∀ l ∈ (handle_event e st).writes, ∃ (i : Int) (axis : String),
      (axis = "horizontal" ∨ axis = "vertical" ∨ axis = "reset") ∧
      l = encode_send
        { cmd := (command_for_name "resize_window").name
          version := version
          payload := message_to_kitty (command_for_name "resize_window")
            [(command_for_name "resize_window").name, "--self",
             "--increment=" ++ toString i, "--axis=" ++ axis]
          no_response := false } ∧
      (command_for_name "resize_window").name = "resize-window" := by
  intro l hl
  obtain ⟨dec, horiz, m, rfl⟩ := emitted_line_shape e st l hl
  refine ⟨(if dec then
      ((if horiz then st.opts.horizontal_increment else st.opts.vertical_increment) * m) * (-1)
    else (if horiz then st.opts.horizontal_increment else st.opts.vertical_increment) * m),
    (if horiz then "horizontal" else "vertical"), ?_, ?_, rfl⟩
  · cases horiz
    · exact Or.inr (Or.inl rfl)
    · exact Or.inl rfl
  · cases dec <;> cases horiz <;> rfl

/-- C8 witness: the horizontal command emitted for the sample move has
the stated command-line and envelope shape. -/
theorem c8_command_shape_witness :
    do_window_resize opts_ex false true false 3 ∈
      (handle_event (InputEvent.mouse ev_ex) st_ex).writes ∧
    (∃ (i : Int) (axis : String),
      (axis = "horizontal" ∨ axis = "vertical" ∨ axis = "reset") ∧
      do_window_resize opts_ex false true false 3 = encode_send
        { cmd := (command_for_name "resize_window").name
          version := version
          payload := message_to_kitty (command_for_name "resize_window")
            [(command_for_name "resize_window").name, "--self",
             "--increment=" ++ toString i, "--axis=" ++ axis]
          no_response := false } ∧
      (command_for_name "resize_window").name = "resize-window") :=
  ⟨by decide, c8_command_shape (InputEvent.mouse ev_ex) st_ex
      (do_window_resize opts_ex false true false 3) (by decide)⟩

/-- C10: for every input event handled in any state, every emitted resize
command has axis horizontal or vertical; the reset axis is never
emitted. -/
theorem c10_axis_never_reset (e : InputEvent) (st : MouseState) :
    ∀ l ∈ (handle_event e st).writes,
      axis_arg l = some "--axis=horizontal" ∨ axis_arg l = some "--axis=vertical" := by
  intro l hl
  obtain ⟨dec, horiz, m, rfl⟩ := emitted_line_shape e st l hl
  cases horiz
  · exact Or.inr (axis_arg_v _ _ _)
  · exact Or.inl (axis_arg_h _ _ _)

/-- C10 witness: the command emitted for the sample move carries the
horizontal axis (in particular not reset). -/
theorem c10_axis_never_reset_witness :
    do_window_resize opts_ex false true false 3 ∈
      (handle_event (InputEvent.mouse ev_ex) st_ex).writes ∧
    (axis_arg (do_window_resize opts_ex false true false 3) = some "--axis=horizontal" ∨
      axis_arg (do_window_resize opts_ex false true false 3) = some "--axis=vertical") :=
  ⟨by decide, c10_axis_never_reset (InputEvent.mouse ev_ex) st_ex
      (do_window_resize opts_ex false true false 3) (by decide)⟩

end MouseResize
